import Mathlib

/-!
Shallow embedding of the tours backend (FastAPI + SQLAlchemy + SQLite):
`models.py` (ORM models, slug event hooks), `functions.py`
(`add_images_with_links`), `itinerary/itinerary.py` (create / fetch / delete
request handlers), `itinerary/schema.py` (Pydantic request/response schemas)
and `uploads/uploads.py` (Cloudinary upload-signature endpoint).

Strings are modelled over their ASCII fragment (the regular-expression
classes `\w` and `\s` of `re` are taken at their ASCII subsets), randomly
generated row identifiers (`generate_id`) are modelled by a fresh counter
threaded through the store, and the external Cloudinary service is modelled
by failure oracles supplied as explicit arguments.
-/

namespace ToursBackend

/-! ## Slug derivation (`models.py`, `slugify`) -/

/-- ASCII fragment of the Python regex class `\w`: letters, digits and the
underscore. -/
def pyWordChar (c : Char) : Bool := c.isAlphanum || c = '_'

/-- ASCII fragment of the Python regex class `\s`: space, tab, newline,
carriage return, vertical tab and form feed. -/
def pySpaceChar (c : Char) : Bool :=
  c = ' ' || c = '\t' || c = '\n' || c = '\r' || c = '\x0B' || c = '\x0C'

/-- Characters kept by the first substitution `re.sub(r"[^\w\s-]", "", value)`
in `slugify`. -/
def keepChar (c : Char) : Bool := pyWordChar c || pySpaceChar c || c = '-'

/-- Python `str.strip()`: remove leading and trailing whitespace. -/
def pyStrip (l : List Char) : List Char :=
  ((l.dropWhile pySpaceChar).reverse.dropWhile pySpaceChar).reverse

/-- The character class `[-\s]` of the second substitution in `slugify`. -/
def hyphenOrSpace (c : Char) : Bool := c = '-' || pySpaceChar c

/-- Second substitution `re.sub(r"[-\s]+", "-", value)` of `slugify`: every
maximal run of hyphens/whitespace becomes a single hyphen.  The boolean flag
records whether the previous character belonged to the current run. -/
def collapseRuns : Bool → List Char → List Char
  | _, [] => []
  | inRun, c :: rest =>
    if hyphenOrSpace c then
      if inRun then collapseRuns true rest else '-' :: collapseRuns true rest
    else c :: collapseRuns false rest

/-- slugify (models.py): `value = re.sub(r"[^\w\s-]", "", value).strip().lower()`
followed by `value = re.sub(r"[-\s]+", "-", value)`. -/
def slugify (value : String) : String :=
  let kept := value.toList.filter keepChar
  let lowered := (pyStrip kept).map Char.toLower
  String.mk (collapseRuns false lowered)

/-- Detects two adjacent hyphens somewhere in a character list. -/
def hasDoubleHyphen : List Char → Bool
  | a :: b :: rest => (a = '-' && b = '-') || hasDoubleHyphen (b :: rest)
  | _ => false

/-- Detects a list whose first character is a hyphen. -/
def headIsHyphen : List Char → Bool
  | c :: _ => c = '-'
  | [] => false

theorem isUpper_toLower (c : Char) : (Char.toLower c).isUpper = false := by
  simp only [Char.toLower]
  split
  · rename_i h
    obtain ⟨h1, h2⟩ := h
    have hv : Nat.isValidChar (Char.toNat c + 32) := Or.inl (by omega)
    simp only [Char.ofNat, hv, dif_pos]
    simp only [Char.isUpper, Char.ofNatAux]
    simp only [ge_iff_le, UInt32.le_def, BitVec.le_def, BitVec.toNat_ofNatLt,
      Bool.and_eq_false_iff, decide_eq_false_iff_not, UInt32.toBitVec_ofNat, BitVec.toNat_ofNat]
    omega
  · rename_i h
    simp only [Char.isUpper]
    simp only [ge_iff_le, UInt32.le_def, BitVec.le_def, UInt32.toBitVec_ofNat, BitVec.toNat_ofNat,
      Bool.and_eq_false_iff, decide_eq_false_iff_not]
    simp only [Char.toNat, UInt32.toNat] at h
    omega

theorem toLower_eq_self (c : Char) (h : c.isUpper = false) : Char.toLower c = c := by
  simp only [Char.toLower]
  rw [if_neg]
  intro hc
  obtain ⟨h1, h2⟩ := hc
  simp only [Char.isUpper, ge_iff_le, UInt32.le_def, BitVec.le_def, UInt32.toBitVec_ofNat,
    BitVec.toNat_ofNat, Bool.and_eq_false_iff, decide_eq_false_iff_not] at h
  simp only [Char.toNat, UInt32.toNat] at h1 h2
  omega

theorem isLower_toLower (c : Char) (h : c.isUpper = true) : (Char.toLower c).isLower = true := by
  simp only [Char.isUpper, ge_iff_le, UInt32.le_def, BitVec.le_def, UInt32.toBitVec_ofNat,
    BitVec.toNat_ofNat, Bool.and_eq_true, decide_eq_true_eq] at h
  obtain ⟨h1, h2⟩ := h
  simp only [Char.toLower]
  have hg : Char.toNat c ≥ 65 ∧ Char.toNat c ≤ 90 := by
    simp only [Char.toNat, UInt32.toNat]; omega
  rw [if_pos hg]
  have hv : Nat.isValidChar (Char.toNat c + 32) := Or.inl (by
    simp only [Char.toNat, UInt32.toNat]; omega)
  simp only [Char.ofNat, hv, dif_pos]
  simp only [Char.isLower, Char.ofNatAux]
  simp only [ge_iff_le, UInt32.le_def, BitVec.le_def, BitVec.toNat_ofNatLt,
    Bool.and_eq_true, decide_eq_true_eq, UInt32.toBitVec_ofNat, BitVec.toNat_ofNat]
  simp only [Char.toNat, UInt32.toNat]
  omega

theorem pyWordChar_toLower (c : Char) (h : pyWordChar c = true) :
    pyWordChar (Char.toLower c) = true := by
  by_cases hu : c.isUpper = true
  · have := isLower_toLower c hu
    simp [pyWordChar, Char.isAlphanum, Char.isAlpha, this]
  · rw [toLower_eq_self c (by simpa using hu)]
    exact h

theorem pySpaceChar_toLower (c : Char) (h : pySpaceChar c = true) : Char.toLower c = c := by
  apply toLower_eq_self
  simp only [pySpaceChar, Bool.or_eq_true, decide_eq_true_eq] at h
  rcases h with ((((h | h) | h) | h) | h) | h <;> subst h <;> decide

theorem collapseRuns_cons_run (c : Char) (rest : List Char) (h : hyphenOrSpace c = true) :
    collapseRuns true (c :: rest) = collapseRuns true rest := by
  simp [collapseRuns, h]

theorem collapseRuns_cons_start (c : Char) (rest : List Char) (h : hyphenOrSpace c = true) :
    collapseRuns false (c :: rest) = '-' :: collapseRuns true rest := by
  simp [collapseRuns, h]

theorem collapseRuns_cons_word (b : Bool) (c : Char) (rest : List Char)
    (h : hyphenOrSpace c = false) :
    collapseRuns b (c :: rest) = c :: collapseRuns false rest := by
  cases b <;> simp [collapseRuns, h]

theorem mem_collapseRuns {c : Char} :
    ∀ (l : List Char) (b : Bool), c ∈ collapseRuns b l →
      c = '-' ∨ (c ∈ l ∧ hyphenOrSpace c = false) := by
  intro l
  induction l with
  | nil => intro b h; simp [collapseRuns] at h
  | cons d rest ih =>
    intro b h
    by_cases hd : hyphenOrSpace d = true
    · cases b with
      | true =>
        rw [collapseRuns_cons_run d rest hd] at h
        rcases ih true h with h1 | ⟨h1, h2⟩
        · exact Or.inl h1
        · exact Or.inr ⟨List.mem_cons_of_mem d h1, h2⟩
      | false =>
        rw [collapseRuns_cons_start d rest hd] at h
        rcases List.mem_cons.mp h with h1 | h1
        · exact Or.inl h1
        · rcases ih true h1 with h2 | ⟨h2, h3⟩
          · exact Or.inl h2
          · exact Or.inr ⟨List.mem_cons_of_mem d h2, h3⟩
    · rw [collapseRuns_cons_word b d rest (by simpa using hd)] at h
      rcases List.mem_cons.mp h with h1 | h1
      · subst h1
        exact Or.inr ⟨List.mem_cons_self _ _, by simpa using hd⟩
      · rcases ih false h1 with h2 | ⟨h2, h3⟩
        · exact Or.inl h2
        · exact Or.inr ⟨List.mem_cons_of_mem d h2, h3⟩

theorem collapseRuns_noDoubleHyphen :
    ∀ (l : List Char) (b : Bool), hasDoubleHyphen (collapseRuns b l) = false ∧
      (b = true → headIsHyphen (collapseRuns b l) = false) := by
  intro l
  induction l with
  | nil =>
    intro b
    constructor
    · cases b <;> rfl
    · intro _; cases b <;> rfl
  | cons c rest ih =>
    intro b
    by_cases hc : hyphenOrSpace c = true
    · cases b with
      | true =>
        rw [collapseRuns_cons_run c rest hc]
        exact ih true
      | false =>
        rw [collapseRuns_cons_start c rest hc]
        obtain ⟨ihd, ihh⟩ := ih true
        constructor
        · cases he : collapseRuns true rest with
          | nil => rfl
          | cons y t =>
            have hy : headIsHyphen (y :: t) = false := he ▸ ihh rfl
            simp only [headIsHyphen, decide_eq_false_iff_not] at hy
            have hd : hasDoubleHyphen (y :: t) = false := he ▸ ihd
            simp only [hasDoubleHyphen, hd, Bool.or_eq_false_iff,
              Bool.and_eq_false_iff, decide_eq_false_iff_not]
            exact ⟨Or.inr hy, trivial⟩
        · intro hb; cases hb
    · have hcn : c ≠ '-' := by
        intro he; subst he; simp [hyphenOrSpace] at hc
      rw [collapseRuns_cons_word b c rest (by simpa using hc)]
      obtain ⟨ihd, _⟩ := ih false
      constructor
      · cases he : collapseRuns false rest with
        | nil => simp [hasDoubleHyphen]
        | cons y t =>
          have hd : hasDoubleHyphen (y :: t) = false := he ▸ ihd
          simp only [hasDoubleHyphen, hd, Bool.or_eq_false_iff,
            Bool.and_eq_false_iff, decide_eq_false_iff_not]
          exact ⟨Or.inl hcn, trivial⟩
      · intro _
        simp only [headIsHyphen, decide_eq_false_iff_not]
        exact hcn

theorem mem_pyStrip {c : Char} {l : List Char} (h : c ∈ pyStrip l) : c ∈ l := by
  simp only [pyStrip, List.mem_reverse] at h
  have h1 := (List.dropWhile_sublist (l := (l.dropWhile pySpaceChar).reverse)
    (p := pySpaceChar)).subset h
  rw [List.mem_reverse] at h1
  exact (List.dropWhile_sublist (l := l) (p := pySpaceChar)).subset h1

/-- C5: for every input title, every character of the derived slug is a hyphen
or a non-uppercase word character, the slug contains no whitespace, no two
adjacent hyphens survive (runs of whitespace/hyphens are collapsed), and
`slugify "Golden Triangle Tour!" = "golden-triangle-tour"`. -/
theorem slugify_spec (s : String) :
    (∀ c ∈ (slugify s).toList, c = '-' ∨ (pyWordChar c = true ∧ c.isUpper = false)) ∧
    (∀ c ∈ (slugify s).toList, pySpaceChar c = false) ∧
    hasDoubleHyphen (slugify s).toList = false ∧
    slugify "Golden Triangle Tour!" = "golden-triangle-tour" := by
  have hlist : (slugify s).toList =
      collapseRuns false ((pyStrip (s.toList.filter keepChar)).map Char.toLower) := rfl
  refine ⟨?_, ?_, ?_, ?_⟩
  · intro c hc
    rw [hlist] at hc
    rcases mem_collapseRuns _ false hc with h1 | ⟨h1, h2⟩
    · exact Or.inl h1
    · rcases List.mem_map.mp h1 with ⟨d, hd, hcd⟩
      have hk : keepChar d = true := (List.mem_filter.mp (mem_pyStrip hd)).2
      simp only [keepChar, Bool.or_eq_true, decide_eq_true_eq] at hk
      rcases hk with (hw | hs) | hh
      · exact Or.inr ⟨hcd ▸ pyWordChar_toLower d hw, hcd ▸ isUpper_toLower d⟩
      · exfalso
        have : c = d := by rw [← hcd, pySpaceChar_toLower d hs]
        rw [this] at h2
        simp [hyphenOrSpace, hs] at h2
      · subst hh
        have : c = '-' := by rw [← hcd]; decide
        exact Or.inl this
  · intro c hc
    rw [hlist] at hc
    rcases mem_collapseRuns _ false hc with h1 | ⟨_, h2⟩
    · subst h1; decide
    · simp only [hyphenOrSpace, Bool.or_eq_false_iff] at h2
      exact h2.2
  · rw [hlist]
    exact (collapseRuns_noDoubleHyphen _ false).1
  · rfl

/-- C5 witness: the hypotheses of `slugify_spec` discharged at a concrete
slug character. -/
theorem slugify_spec_witness :
    ('g' = '-' ∨ (pyWordChar 'g' = true ∧ ('g').isUpper = false)) ∧
    pySpaceChar 'g' = false :=
  ⟨(slugify_spec "Golden Triangle Tour!").1 'g' (by decide),
   (slugify_spec "Golden Triangle Tour!").2.1 'g' (by decide)⟩

/-! ## Slug event hooks (`models.py`, `before_insert` / `before_update`) -/

/-- Mutable ORM state of an `Itinerary` instance as seen by the slug event
hooks: only `title` and `slug` matter.  `slug = none` models Python `None`
(column not yet assigned); Python truthiness of a string is nonemptiness. -/
structure ItineraryTarget where
  title : String
  slug : Option String
deriving DecidableEq, Repr

/-- Python truthiness of an optional string: `None` and `""` are falsy. -/
def strTruthy : Option String → Bool
  | none => false
  | some s => s ≠ ""

/-- create_itinerary_slug (models.py, `before_insert` listener):
`if target.title and not target.slug: target.slug = slugify(target.title)`. -/
def create_itinerary_slug (target : ItineraryTarget) : ItineraryTarget :=
  if target.title ≠ "" ∧ strTruthy target.slug = false then
    { target with slug := some (slugify target.title) }
  else target

/-- update_itinerary_slug (models.py, `before_update` listener):
`if target.title: target.slug = slugify(target.title)`. -/
def update_itinerary_slug (target : ItineraryTarget) : ItineraryTarget :=
  if target.title ≠ "" then { target with slug := some (slugify target.title) }
  else target

/-- C6 counterexample: on insert the slug is NOT recomputed when the object
already carries a truthy slug — the stored slug keeps its prior value
`"custom"` instead of `slugify "My Tour" = "my-tour"`. -/
theorem create_slug_not_always_recomputed :
    (create_itinerary_slug ⟨"My Tour", some "custom"⟩).slug ≠
      some (slugify "My Tour") := by decide

/-- C6 amended: before insert the slug is computed from the title exactly when
the title is nonempty and the slug is not already set to a truthy value
(otherwise the object is untouched); before update the slug is recomputed from
the title whenever the title is nonempty (otherwise the object is untouched). -/
theorem slug_hooks_spec (t : ItineraryTarget) :
    (t.title ≠ "" → strTruthy t.slug = false →
        (create_itinerary_slug t).slug = some (slugify t.title)) ∧
    (strTruthy t.slug = true ∨ t.title = "" → create_itinerary_slug t = t) ∧
    (t.title ≠ "" → (update_itinerary_slug t).slug = some (slugify t.title)) ∧
    (t.title = "" → update_itinerary_slug t = t) := by
  refine ⟨?_, ?_, ?_, ?_⟩
  · intro h1 h2
    simp [create_itinerary_slug, h1, h2]
  · intro h
    rcases h with h | h
    · simp [create_itinerary_slug, h]
    · simp [create_itinerary_slug, h]
  · intro h
    simp [update_itinerary_slug, h]
  · intro h
    simp [update_itinerary_slug, h]

/-- C6 witness: the amended hook behaviour evaluated at concrete objects. -/
theorem slug_hooks_spec_witness :
    (create_itinerary_slug ⟨"My Tour", none⟩).slug = some (slugify "My Tour") ∧
    (update_itinerary_slug ⟨"My Tour", some "custom"⟩).slug = some (slugify "My Tour") :=
  ⟨(slug_hooks_spec ⟨"My Tour", none⟩).1 (by decide) (by decide),
   (slug_hooks_spec ⟨"My Tour", some "custom"⟩).2.2.1 (by decide)⟩

/-! ## Relational store (`models.py` tables)

Row identifiers (`generate_id` draws a fresh random token per row) are
modelled by natural numbers drawn from a fresh counter threaded through the
store; `created_at` (wall-clock `datetime.now`) is an explicit argument of the
create workflow; JSON dictionaries of the cost line items are modelled as
association lists. -/

/-- images table (models.py `Image`). -/
structure ImageRow where
  id : Nat
  url : String
  public_id : String
deriving DecidableEq, Repr

/-- image_links table (models.py `ImageLink`): polymorphic link of an image to
an owning entity through the `(entity_type, entity_id)` pair; `entity_id` is a
plain string column, not a foreign key. -/
structure ImageLinkRow where
  id : Nat
  image_id : Nat
  entity_type : String
  entity_id : Nat
deriving DecidableEq, Repr

/-- itineraries table (models.py `Itinerary`): scalar columns only — `images`,
`days`, `map` and `tags` are relationships resolved against the other tables.
The model declares no `price` column. -/
structure ItineraryRow where
  id : Nat
  title : String
  overview : String
  slug : String
  duration : Int
  arrival_city : String
  departure_city : String
  accommodation : String
  location : String
  discount : Int
  cost_inclusive : List (List (String × String))
  cost_exclusive : List (List (String × String))
  created_at : Nat
deriving DecidableEq, Repr

/-- itinerary_days table (models.py `ItineraryDay`). -/
structure ItineraryDayRow where
  id : Nat
  day_number : Int
  title : String
  description : String
  itinerary_id : Nat
deriving DecidableEq, Repr

/-- hotel_details table (models.py `HotelDetail`); `url` and `day_id` are
nullable. -/
structure HotelDetailRow where
  id : Nat
  name : String
  url : Option String
  day_id : Option Nat
deriving DecidableEq, Repr

/-- maps table (models.py `Map`). -/
structure MapRow where
  id : Nat
  itinerary_id : Nat
deriving DecidableEq, Repr

/-- tags table (models.py `Tag`). -/
structure TagRow where
  id : Nat
  item : String
  itinerary_id : Nat
deriving DecidableEq, Repr

/-- The relational store: one list per table, plus the fresh-identifier
counter modelling `generate_id`. -/
structure Store where
  images : List ImageRow
  image_links : List ImageLinkRow
  itineraries : List ItineraryRow
  itinerary_days : List ItineraryDayRow
  hotel_details : List HotelDetailRow
  maps : List MapRow
  tags : List TagRow
  nextId : Nat
deriving DecidableEq, Repr

/-- The store of a freshly initialized database. -/
def emptyStore : Store := ⟨[], [], [], [], [], [], [], 0⟩

/-- Draw a fresh row identifier. -/
def Store.freshId (s : Store) : Nat × Store := (s.nextId, { s with nextId := s.nextId + 1 })

/-! ## Read-path relationships (models.py relationship configuration) -/

/-- Images owned by an entity through the polymorphic link table: the
`secondary="image_links"` relationship with
`primaryjoin entity_id == id ∧ entity_type == '<kind>'` and
`secondaryjoin image_id == Image.id`. -/
def imagesFor (db : Store) (entity_type : String) (entity_id : Nat) : List ImageRow :=
  (db.image_links.filter
      (fun l => l.entity_type = entity_type && l.entity_id = entity_id)).filterMap
    (fun l => db.images.find? (fun i => i.id = l.image_id))

/-- Days of an itinerary (`Itinerary.days`). -/
def daysFor (db : Store) (itinerary_id : Nat) : List ItineraryDayRow :=
  db.itinerary_days.filter (fun d => d.itinerary_id = itinerary_id)

/-- Hotel detail of a day (`ItineraryDay.hotel_detail`, `uselist=False`). -/
def hotelDetailFor (db : Store) (day_id : Nat) : Option HotelDetailRow :=
  db.hotel_details.find? (fun h => h.day_id = some day_id)

/-- Map of an itinerary (`Itinerary.map`, `uselist=False`). -/
def mapFor (db : Store) (itinerary_id : Nat) : Option MapRow :=
  db.maps.find? (fun m => m.itinerary_id = itinerary_id)

/-- Single image of a map (`Map.image`, `uselist=False`: the first joined
image, if any). -/
def mapImageFor (db : Store) (map_id : Nat) : Option ImageRow :=
  (imagesFor db "map" map_id).head?

/-- Tags of an itinerary (`Itinerary.tags`). -/
def tagsFor (db : Store) (itinerary_id : Nat) : List TagRow :=
  db.tags.filter (fun t => t.itinerary_id = itinerary_id)

/-! ## Creation payload (itinerary/schema.py, `ItineraryCreateSchema`)

The optional list fields (`days`, `tags`, `images`, `cost_inclusive`,
`cost_exclusive`) default to `[]` and the handlers read them as
`request.xs or []`, under which Python `None` and `[]` are indistinguishable;
they are therefore modelled as plain lists.  `discount` is kept optional
because the handler applies `request.discount or 0`. -/

/-- ImageCreateSchema. -/
structure ImageCreateSchema where
  url : String
  public_id : String
deriving DecidableEq, Repr

/-- HotelDetailCreateSchema. -/
structure HotelDetailCreateSchema where
  name : String
  url : Option String
  images : List ImageCreateSchema
deriving DecidableEq, Repr

/-- ItineraryDayCreateSchema. -/
structure ItineraryDayCreateSchema where
  day_number : Int
  title : String
  description : String
  hotel_detail : Option HotelDetailCreateSchema
  images : List ImageCreateSchema
deriving DecidableEq, Repr

/-- MapCreateSchema: a single optional image. -/
structure MapCreateSchema where
  image : Option ImageCreateSchema
deriving DecidableEq, Repr

/-- TagCreateSchema. -/
structure TagCreateSchema where
  item : String
deriving DecidableEq, Repr

/-- ItineraryCreateSchema: the full nested creation payload.  Note that it
requires a `price`, which the create handler never stores. -/
structure ItineraryCreateSchema where
  title : String
  overview : String
  duration : Int
  arrival_city : String
  departure_city : String
  accommodation : String
  location : String
  discount : Option Int
  price : Int
  cost_inclusive : List (List (String × String))
  cost_exclusive : List (List (String × String))
  days : List ItineraryDayCreateSchema
  map : Option MapCreateSchema
  tags : List TagCreateSchema
  images : List ImageCreateSchema
deriving DecidableEq, Repr

/-! ## Creation workflow (itinerary/itinerary.py, `create_itinerary`)

The SQLAlchemy session holds every `db.add` / `db.flush` inside one open
transaction; `db.commit()` at the end makes it durable.  `get_session`
(database.py) closes the session when the request ends, which rolls back any
transaction that was never committed.  Failures are modelled by two sources:
the deterministic constraint checks of the itineraries table (NOT NULL and
UNIQUE on `slug`) applied when the root row is flushed, and a backend oracle
`Nat → Bool` that tells whether the n-th flush/commit round-trip fails. -/

/-- Storage-layer errors (`sqlalchemy.exc.SQLAlchemyError`). -/
inductive DbError where
  | integrity
  | backend (step : Nat)
deriving DecidableEq, Repr

/-- In-flight transaction: the pending view of the store (committed data plus
every row added so far) and the number of flush/commit round-trips done. -/
structure Tx where
  store : Store
  step : Nat
deriving DecidableEq, Repr

/-- db.flush() / db.commit(): one round-trip to the storage backend, which the
oracle may fail. -/
def flushTx (oracle : Nat → Bool) (tx : Tx) : Except DbError Tx :=
  if oracle tx.step then .error (.backend tx.step) else .ok { tx with step := tx.step + 1 }

/-- add_images_with_links (functions.py): for each payload image, add an
`Image` row, flush (to obtain its identifier), then add an `ImageLink` row
tying it to the owning entity. -/
def add_images_with_links (oracle : Nat → Bool) :
    List ImageCreateSchema → String → Nat → Tx → Except DbError Tx
  | [], _, _, tx => .ok tx
  | img :: rest, entity_type, entity_id, tx =>
    let (imgId, s1) := tx.store.freshId
    let s2 := { s1 with images := s1.images ++ [⟨imgId, img.url, img.public_id⟩] }
    match flushTx oracle { tx with store := s2 } with
    | .error e => .error e
    | .ok tx1 =>
      let (lnkId, s3) := tx1.store.freshId
      let s4 := { s3 with image_links := s3.image_links ++ [⟨lnkId, imgId, entity_type, entity_id⟩] }
      add_images_with_links oracle rest entity_type entity_id { tx1 with store := s4 }

/-- Day step of create_itinerary: add the `ItineraryDay` row, flush, attach
its images, and if a hotel detail is present add the `HotelDetail` row, flush,
and attach its images. -/
def createDay (oracle : Nat → Bool) (itinerary_id : Nat) (day : ItineraryDayCreateSchema)
    (tx : Tx) : Except DbError Tx :=
  let (dayId, s1) := tx.store.freshId
  let s2 := { s1 with itinerary_days :=
    s1.itinerary_days ++ [⟨dayId, day.day_number, day.title, day.description, itinerary_id⟩] }
  match flushTx oracle { tx with store := s2 } with
  | .error e => .error e
  | .ok tx1 =>
    match add_images_with_links oracle day.images "itinerary_day" dayId tx1 with
    | .error e => .error e
    | .ok tx2 =>
      match day.hotel_detail with
      | none => .ok tx2
      | some hd =>
        let (hotelId, s3) := tx2.store.freshId
        let s4 := { s3 with hotel_details :=
          s3.hotel_details ++ [⟨hotelId, hd.name, hd.url, some dayId⟩] }
        match flushTx oracle { tx2 with store := s4 } with
        | .error e => .error e
        | .ok tx3 => add_images_with_links oracle hd.images "hotel_detail" hotelId tx3

/-- Loop over the payload days, in payload order. -/
def createDays (oracle : Nat → Bool) (itinerary_id : Nat) :
    List ItineraryDayCreateSchema → Tx → Except DbError Tx
  | [], tx => .ok tx
  | day :: rest, tx =>
    match createDay oracle itinerary_id day tx with
    | .error e => .error e
    | .ok tx1 => createDays oracle itinerary_id rest tx1

/-- Map step: `if request.map and request.map.image`, add the `Map` row, flush,
and attach exactly one image. -/
def createMap (oracle : Nat → Bool) (itinerary_id : Nat) (m : Option MapCreateSchema)
    (tx : Tx) : Except DbError Tx :=
  match m with
  | none => .ok tx
  | some mp =>
    match mp.image with
    | none => .ok tx
    | some img =>
      let (mapId, s1) := tx.store.freshId
      let s2 := { s1 with maps := s1.maps ++ [⟨mapId, itinerary_id⟩] }
      match flushTx oracle { tx with store := s2 } with
      | .error e => .error e
      | .ok tx1 => add_images_with_links oracle [img] "map" mapId tx1

/-- Tag step: add one `Tag` row per payload tag; tags are never flushed
individually. -/
def addTags (itinerary_id : Nat) : List TagCreateSchema → Tx → Tx
  | [], tx => tx
  | tag :: rest, tx =>
    let (tagId, s1) := tx.store.freshId
    addTags itinerary_id rest
      { tx with store := { s1 with tags := s1.tags ++ [⟨tagId, tag.item, itinerary_id⟩] } }

/-- Root row of the itinerary built from the scalar payload fields (the
`before_insert` hook supplies the slug; `request.discount or 0` supplies the
discount; `price` is dropped — no such column exists). -/
def rootRowOf (request : ItineraryCreateSchema) (id now : Nat) (slug : String) : ItineraryRow :=
  ⟨id, request.title, request.overview, slug, request.duration, request.arrival_city,
   request.departure_city, request.accommodation, request.location,
   (request.discount.getD 0), request.cost_inclusive, request.cost_exclusive, now⟩

/-- The body of create_itinerary (itinerary/itinerary.py) up to and including
`db.commit()`: add the root, flush (the first round-trip, at which the
itineraries table constraints NOT NULL and UNIQUE on `slug` are checked), then
attach root images, days, the map and the tags, and commit (the final
round-trip).  Returns the pending store and the new root identifier. -/
def create_itinerary_workflow (oracle : Nat → Bool) (now : Nat)
    (request : ItineraryCreateSchema) (db : Store) : Except DbError (Tx × Nat) :=
  let (iid, s1) := db.freshId
  match (create_itinerary_slug ⟨request.title, none⟩).slug with
  | none => .error .integrity
  | some slug =>
    if db.itineraries.any (fun r => r.slug = slug) then .error .integrity
    else
      let tx0 : Tx := ⟨{ s1 with itineraries := s1.itineraries ++ [rootRowOf request iid now slug] }, 0⟩
      match flushTx oracle tx0 with
      | .error e => .error e
      | .ok tx1 =>
        match add_images_with_links oracle request.images "itinerary" iid tx1 with
        | .error e => .error e
        | .ok tx2 =>
          match createDays oracle iid request.days tx2 with
          | .error e => .error e
          | .ok tx3 =>
            match createMap oracle iid request.map tx3 with
            | .error e => .error e
            | .ok tx4 =>
              match flushTx oracle (addTags iid request.tags tx4) with
              | .error e => .error e
              | .ok tx5 => .ok (tx5, iid)

/-- Outcome of POST /itineraries/create. -/
inductive CreateResult where
  | created (itinerary_id : Nat)
  | serverError
deriving DecidableEq, Repr

/-- POST /itineraries/create with session semantics: the handler has no
`try/except`, so a storage failure propagates to the framework (a 500
response) and `get_session` (database.py) closes the session, rolling back the
never-committed transaction; only a completed workflow commits the pending
store. -/
def create_itinerary (oracle : Nat → Bool) (now : Nat) (request : ItineraryCreateSchema)
    (db : Store) : Store × CreateResult :=
  match create_itinerary_workflow oracle now request db with
  | .error _ => (db, .serverError)
  | .ok (tx, iid) => (tx.store, .created iid)

theorem flushTx_ok {oracle : Nat → Bool} {tx tx' : Tx}
    (h : flushTx oracle tx = .ok tx') : tx'.store = tx.store := by
  unfold flushTx at h
  split at h
  · exact Except.noConfusion h
  · cases h; rfl

theorem add_images_frame {oracle : Nat → Bool} :
    ∀ (imgs : List ImageCreateSchema) (et : String) (eid : Nat) (tx tx' : Tx),
      add_images_with_links oracle imgs et eid tx = .ok tx' →
      tx'.store.itineraries = tx.store.itineraries ∧
      tx'.store.itinerary_days = tx.store.itinerary_days ∧
      tx'.store.hotel_details = tx.store.hotel_details ∧
      tx'.store.maps = tx.store.maps ∧
      tx'.store.tags = tx.store.tags := by
  intro imgs
  induction imgs with
  | nil =>
    intro et eid tx tx' h
    cases h
    exact ⟨rfl, rfl, rfl, rfl, rfl⟩
  | cons img rest ih =>
    intro et eid tx tx' h
    rw [add_images_with_links] at h
    simp only [Store.freshId] at h
    split at h
    · exact Except.noConfusion h
    · rename_i tx1 heq
      have h1 := flushTx_ok heq
      have h2 := ih et eid _ tx' h
      rw [h1] at h2
      exact h2

theorem createDay_frame {oracle : Nat → Bool} {iid : Nat} {day : ItineraryDayCreateSchema}
    {tx tx' : Tx} (h : createDay oracle iid day tx = .ok tx') :
    tx'.store.itineraries = tx.store.itineraries ∧
    tx'.store.itinerary_days.length = tx.store.itinerary_days.length + 1 ∧
    tx'.store.maps = tx.store.maps ∧
    tx'.store.tags = tx.store.tags := by
  rw [createDay] at h
  simp only [Store.freshId] at h
  split at h
  · exact Except.noConfusion h
  · rename_i tx1 heq1
    have e1 := flushTx_ok heq1
    split at h
    · exact Except.noConfusion h
    · rename_i tx2 heq2
      obtain ⟨f1, f2, f3, f4, f5⟩ := add_images_frame _ _ _ _ _ heq2
      rw [e1] at f1 f2 f3 f4 f5
      split at h
      · cases h
        refine ⟨f1, ?_, f4, f5⟩
        rw [f2]; simp
      · rename_i hd
        split at h
        · exact Except.noConfusion h
        · rename_i tx3 heq3
          have e3 := flushTx_ok heq3
          obtain ⟨g1, g2, g3, g4, g5⟩ := add_images_frame _ _ _ _ _ h
          rw [e3] at g1 g2 g3 g4 g5
          refine ⟨?_, ?_, ?_, ?_⟩
          · rw [g1]; exact f1
          · rw [g2]; simp only [List.length_append]; rw [f2]; simp
          · rw [g4]; exact f4
          · rw [g5]; exact f5

theorem createDays_frame {oracle : Nat → Bool} {iid : Nat} :
    ∀ (days : List ItineraryDayCreateSchema) (tx tx' : Tx),
      createDays oracle iid days tx = .ok tx' →
      tx'.store.itineraries = tx.store.itineraries ∧
      tx'.store.itinerary_days.length = tx.store.itinerary_days.length + days.length ∧
      tx'.store.maps = tx.store.maps ∧
      tx'.store.tags = tx.store.tags := by
  intro days
  induction days with
  | nil =>
    intro tx tx' h
    cases h
    exact ⟨rfl, rfl, rfl, rfl⟩
  | cons day rest ih =>
    intro tx tx' h
    rw [createDays] at h
    split at h
    · exact Except.noConfusion h
    · rename_i tx1 heq
      obtain ⟨d1, d2, d3, d4⟩ := createDay_frame heq
      obtain ⟨r1, r2, r3, r4⟩ := ih _ tx' h
      refine ⟨r1.trans d1, ?_, r3.trans d3, r4.trans d4⟩
      rw [r2, d2]
      simp [List.length_cons]
      omega

theorem createMap_frame {oracle : Nat → Bool} {iid : Nat} {m : Option MapCreateSchema}
    {tx tx' : Tx} (h : createMap oracle iid m tx = .ok tx') :
    tx'.store.itineraries = tx.store.itineraries ∧
    tx'.store.itinerary_days = tx.store.itinerary_days ∧
    tx'.store.tags = tx.store.tags := by
  rw [createMap.eq_def] at h
  split at h
  · cases h; exact ⟨rfl, rfl, rfl⟩
  · rename_i mp
    split at h
    · cases h; exact ⟨rfl, rfl, rfl⟩
    · rename_i img
      simp only [Store.freshId] at h
      split at h
      · exact Except.noConfusion h
      · rename_i tx1 heq
        have e1 := flushTx_ok heq
        obtain ⟨f1, f2, _, _, f5⟩ := add_images_frame _ _ _ _ _ h
        rw [e1] at f1 f2 f5
        exact ⟨f1, f2, f5⟩

theorem addTags_frame {iid : Nat} :
    ∀ (tags : List TagCreateSchema) (tx : Tx),
      (addTags iid tags tx).store.itineraries = tx.store.itineraries ∧
      (addTags iid tags tx).store.itinerary_days = tx.store.itinerary_days ∧
      (addTags iid tags tx).store.tags.length = tx.store.tags.length + tags.length := by
  intro tags
  induction tags with
  | nil => intro tx; exact ⟨rfl, rfl, rfl⟩
  | cons tag rest ih =>
    intro tx
    rw [addTags]
    simp only [Store.freshId]
    obtain ⟨r1, r2, r3⟩ := ih _
    refine ⟨r1, r2, ?_⟩
    rw [r3]
    simp [List.length_append]
    omega

theorem workflow_ok_shape {oracle : Nat → Bool} {now : Nat} {request : ItineraryCreateSchema}
    {db : Store} {tx : Tx} {iid : Nat}
    (h : create_itinerary_workflow oracle now request db = .ok (tx, iid)) :
    ∃ slug, (create_itinerary_slug ⟨request.title, none⟩).slug = some slug ∧
      db.itineraries.any (fun r => r.slug = slug) = false ∧
      iid = db.nextId ∧
      tx.store.itineraries = db.itineraries ++ [rootRowOf request db.nextId now slug] ∧
      tx.store.itinerary_days.length = db.itinerary_days.length + request.days.length ∧
      tx.store.tags.length = db.tags.length + request.tags.length := by
  rw [create_itinerary_workflow] at h
  simp only [Store.freshId] at h
  split at h
  · exact Except.noConfusion h
  · rename_i slug hslug
    refine ⟨slug, hslug, ?_⟩
    split at h
    · exact Except.noConfusion h
    · rename_i hany
      refine ⟨by simpa using hany, ?_⟩
      split at h
      · exact Except.noConfusion h
      · rename_i tx1 heq1
        have e1 := flushTx_ok heq1
        split at h
        · exact Except.noConfusion h
        · rename_i tx2 heq2
          obtain ⟨f1, f2, _, _, f5⟩ := add_images_frame _ _ _ _ _ heq2
          split at h
          · exact Except.noConfusion h
          · rename_i tx3 heq3
            obtain ⟨d1, d2, _, d4⟩ := createDays_frame _ _ _ heq3
            split at h
            · exact Except.noConfusion h
            · rename_i tx4 heq4
              obtain ⟨m1, m2, m3⟩ := createMap_frame heq4
              split at h
              · exact Except.noConfusion h
              · rename_i tx5 heq5
                have e5 := flushTx_ok heq5
                obtain ⟨t1, t2, t3⟩ := addTags_frame request.tags tx4
                cases h
                refine ⟨rfl, ?_, ?_, ?_⟩
                · rw [e5, t1, m1, d1, f1, e1]
                · rw [e5, t2, m2, d2, f2, e1]
                · rw [e5, t3, m3, d4, f5, e1]

/-- An oracle under which no storage round-trip fails. -/
def noFailOracle : Nat → Bool := fun _ => false

theorem flushTx_noFail (tx : Tx) :
    flushTx noFailOracle tx = .ok { tx with step := tx.step + 1 } := rfl

theorem add_images_noFail :
    ∀ (imgs : List ImageCreateSchema) (et : String) (eid : Nat) (tx : Tx),
      ∃ tx', add_images_with_links noFailOracle imgs et eid tx = .ok tx' := by
  intro imgs
  induction imgs with
  | nil => intro et eid tx; exact ⟨tx, rfl⟩
  | cons img rest ih =>
    intro et eid tx
    rw [add_images_with_links]
    simp only [Store.freshId, flushTx_noFail]
    exact ih et eid _

theorem createDay_noFail (iid : Nat) (day : ItineraryDayCreateSchema) (tx : Tx) :
    ∃ tx', createDay noFailOracle iid day tx = .ok tx' := by
  rw [createDay]
  simp only [Store.freshId, flushTx_noFail]
  obtain ⟨tx2, h2⟩ := add_images_noFail day.images "itinerary_day" tx.store.nextId _
  rw [h2]
  cases hd : day.hotel_detail with
  | none => exact ⟨tx2, rfl⟩
  | some hdv =>
    simp only [flushTx_noFail]
    exact add_images_noFail hdv.images "hotel_detail" tx2.store.nextId _

theorem createDays_noFail (iid : Nat) :
    ∀ (days : List ItineraryDayCreateSchema) (tx : Tx),
      ∃ tx', createDays noFailOracle iid days tx = .ok tx' := by
  intro days
  induction days with
  | nil => intro tx; exact ⟨tx, rfl⟩
  | cons day rest ih =>
    intro tx
    rw [createDays]
    obtain ⟨tx1, h1⟩ := createDay_noFail iid day tx
    rw [h1]
    exact ih tx1

theorem createMap_noFail (iid : Nat) (m : Option MapCreateSchema) (tx : Tx) :
    ∃ tx', createMap noFailOracle iid m tx = .ok tx' := by
  cases m with
  | none => exact ⟨tx, rfl⟩
  | some mp =>
    cases hi : mp.image with
    | none =>
      refine ⟨tx, ?_⟩
      rw [createMap.eq_def]
      simp only [hi]
    | some img =>
      rw [createMap.eq_def]
      simp only [hi, Store.freshId, flushTx_noFail]
      exact add_images_noFail [img] "map" _ _

theorem workflow_noFail {now : Nat} {request : ItineraryCreateSchema} {db : Store} {slug : String}
    (hslug : (create_itinerary_slug ⟨request.title, none⟩).slug = some slug)
    (hany : db.itineraries.any (fun r => r.slug = slug) = false) :
    ∃ tx, create_itinerary_workflow noFailOracle now request db = .ok (tx, db.nextId) := by
  rw [create_itinerary_workflow]
  simp only [Store.freshId, hslug, hany]
  simp only [Bool.false_eq_true, if_false, flushTx_noFail]
  obtain ⟨tx2, h2⟩ := add_images_noFail request.images "itinerary" db.nextId _
  rw [h2]
  obtain ⟨tx3, h3⟩ := createDays_noFail db.nextId request.days tx2
  simp only [h3]
  obtain ⟨tx4, h4⟩ := createMap_noFail db.nextId request.map tx3
  simp only [h4]
  exact ⟨_, rfl⟩

/-- Concrete creation payload used by the concrete-evaluation theorems. -/
def samplePayload : ItineraryCreateSchema where
  title := "Golden Triangle Tour!"
  overview := "A classic loop"
  duration := 5
  arrival_city := "Delhi"
  departure_city := "Agra"
  accommodation := "Hotel"
  location := "India"
  discount := some 10
  price := 999
  cost_inclusive := [[("item", "Breakfast")]]
  cost_exclusive := [[("item", "Flights")]]
  days := [⟨1, "Arrival", "Arrive and rest",
    some ⟨"Taj Hotel", some "https://taj.example", [⟨"hu1", "hp1"⟩]⟩, [⟨"du1", "dp1"⟩]⟩]
  map := some ⟨some ⟨"mu1", "mp1"⟩⟩
  tags := [⟨"golden"⟩]
  images := [⟨"u1", "p1"⟩]

/-- Minimal second payload whose title normalizes to the same slug as
`samplePayload`. -/
def samplePayload2 : ItineraryCreateSchema where
  title := "golden  TRIANGLE tour"
  overview := "x"
  duration := 3
  arrival_city := "a"
  departure_city := "b"
  accommodation := "c"
  location := "d"
  discount := none
  price := 1
  cost_inclusive := []
  cost_exclusive := []
  days := []
  map := none
  tags := []
  images := []

/-- C2: create_itinerary is atomic.  If the workflow fails at any step, the
handler leaves the committed store exactly as it was (the session is closed
without commit, rolling the transaction back) and surfaces a server error;
only a fully successful workflow commits, and then the committed store holds
the whole graph: one new itinerary row, one day row per payload day and one
tag row per payload tag. -/
theorem create_itinerary_atomic (oracle : Nat → Bool) (now : Nat)
    (request : ItineraryCreateSchema) (db : Store) :
    (∀ e, create_itinerary_workflow oracle now request db = .error e →
      create_itinerary oracle now request db = (db, .serverError)) ∧
    (∀ tx iid, create_itinerary_workflow oracle now request db = .ok (tx, iid) →
      create_itinerary oracle now request db = (tx.store, .created iid) ∧
      tx.store.itineraries.length = db.itineraries.length + 1 ∧
      tx.store.itinerary_days.length = db.itinerary_days.length + request.days.length ∧
      tx.store.tags.length = db.tags.length + request.tags.length) := by
  constructor
  · intro e h
    simp only [create_itinerary, h]
  · intro tx iid h
    obtain ⟨slug, _, _, _, hIt, hDays, hTags⟩ := workflow_ok_shape h
    refine ⟨by simp only [create_itinerary, h], ?_, hDays, hTags⟩
    rw [hIt]
    simp

/-- C2 witness: with an oracle that fails the very first flush, creating the
sample payload over the empty store leaves the store empty and reports a
server error. -/
theorem create_itinerary_atomic_witness :
    create_itinerary (fun _ => true) 0 samplePayload emptyStore = (emptyStore, .serverError) :=
  (create_itinerary_atomic (fun _ => true) 0 samplePayload emptyStore).1 (.backend 0) rfl

/-- Helper: with a nonempty title and no preassigned slug, the before_insert
hook derives the stored slug from the title. -/
theorem hook_slug_of_title {t : String} (h : t ≠ "") :
    (create_itinerary_slug ⟨t, none⟩).slug = some (slugify t) := by
  simp [create_itinerary_slug, strTruthy, h]

/-- C7: for two payloads whose titles normalize to the same slug (against a
store not already holding that slug), the first creation succeeds and the
second fails with a storage constraint error (the UNIQUE index on `slug`),
leaving the store — and hence the first row — exactly as the first creation
left it. -/
theorem duplicate_slug_rejected (now1 now2 : Nat) (p1 p2 : ItineraryCreateSchema) (db : Store)
    (h1 : p1.title ≠ "") (h2 : p2.title ≠ "")
    (hs : slugify p1.title = slugify p2.title)
    (hdb : db.itineraries.any (fun r => r.slug = slugify p1.title) = false) :
    ∃ s1 : Store, ∃ iid : Nat,
      create_itinerary noFailOracle now1 p1 db = (s1, .created iid) ∧
      create_itinerary_workflow noFailOracle now2 p2 s1 = .error .integrity ∧
      create_itinerary noFailOracle now2 p2 s1 = (s1, .serverError) := by
  obtain ⟨tx, hwf⟩ := @workflow_noFail now1 p1 db (slugify p1.title) (hook_slug_of_title h1) hdb
  obtain ⟨slug, hsl, _, _, hIt, _, _⟩ := workflow_ok_shape hwf
  have hslug1 : slug = slugify p1.title := by
    rw [hook_slug_of_title h1] at hsl
    exact (Option.some.inj hsl).symm
  have hany2 : tx.store.itineraries.any (fun r => r.slug = slugify p2.title) = true := by
    rw [hIt]
    apply List.any_eq_true.mpr
    refine ⟨rootRowOf p1 db.nextId now1 slug, List.mem_append_right _ (by simp), ?_⟩
    simp [rootRowOf, hslug1, hs]
  have hwf2 : create_itinerary_workflow noFailOracle now2 p2 tx.store = .error .integrity := by
    rw [create_itinerary_workflow]
    simp only [Store.freshId, hook_slug_of_title h2, hany2]
    rfl
  exact ⟨tx.store, db.nextId, by simp only [create_itinerary, hwf], hwf2,
    by simp only [create_itinerary, hwf2]⟩

/-- C7 witness: the duplicate-slug rejection evaluated on two concrete
payloads whose titles both normalize to "golden-triangle-tour". -/
theorem duplicate_slug_rejected_witness :
    ∃ s1 : Store, ∃ iid : Nat,
      create_itinerary noFailOracle 0 samplePayload emptyStore = (s1, .created iid) ∧
      create_itinerary_workflow noFailOracle 1 samplePayload2 s1 = .error .integrity ∧
      create_itinerary noFailOracle 1 samplePayload2 s1 = (s1, .serverError) :=
  duplicate_slug_rejected 0 1 samplePayload samplePayload2 emptyStore
    (by decide) (by decide) (by decide) (by decide)

/-! ## Response schemas (itinerary/schema.py) and the fetch path -/

/-- ImageSchema (response). -/
structure ImageSchema where
  id : Nat
  url : String
  public_id : String
deriving DecidableEq, Repr

/-- HotelDetailSchema (response). -/
structure HotelDetailSchema where
  id : Nat
  name : String
  url : Option String
  images : List ImageSchema
deriving DecidableEq, Repr

/-- ItineraryDaySchema (response). -/
structure ItineraryDaySchema where
  id : Nat
  day_number : Int
  title : String
  description : String
  images : List ImageSchema
  hotel_detail : Option HotelDetailSchema
deriving DecidableEq, Repr

/-- MapSchema (response): field `images` holds the single optional map image. -/
structure MapSchema where
  id : Nat
  images : Option ImageSchema
deriving DecidableEq, Repr

/-- TagSchema (response). -/
structure TagSchema where
  id : Nat
  item : String
deriving DecidableEq, Repr

/-- ItinerarySchema (itinerary/schema.py): the response model of the fetch
endpoints.  It declares a REQUIRED `price` field. -/
structure ItinerarySchema where
  id : Nat
  title : String
  overview : String
  slug : String
  duration : Int
  arrival_city : String
  departure_city : String
  accommodation : String
  location : String
  discount : Int
  price : Int
  cost_inclusive : List (List (String × String))
  cost_exclusive : List (List (String × String))
  images : List ImageSchema
  days : List ItineraryDaySchema
  map : Option MapSchema
  tags : List TagSchema
  created_at : Nat
deriving DecidableEq, Repr

/-- Pydantic `from_attributes` lookup of the required `price` field on an ORM
`Itinerary` instance: `models.py` declares no `price` column (the create
handler drops the payload price), so the lookup finds no value on any row. -/
def itineraryPriceAttr (_ : ItineraryRow) : Option Int := none

/-- Conversion of an `Image` row to its response schema. -/
def imageSchemaOf (i : ImageRow) : ImageSchema := ⟨i.id, i.url, i.public_id⟩

/-- Conversion of a `HotelDetail` row with its joined images. -/
def hotelDetailSchemaOf (db : Store) (h : HotelDetailRow) : HotelDetailSchema :=
  ⟨h.id, h.name, h.url, (imagesFor db "hotel_detail" h.id).map imageSchemaOf⟩

/-- Conversion of an `ItineraryDay` row with its joined images and hotel. -/
def daySchemaOf (db : Store) (d : ItineraryDayRow) : ItineraryDaySchema :=
  ⟨d.id, d.day_number, d.title, d.description,
   (imagesFor db "itinerary_day" d.id).map imageSchemaOf,
   (hotelDetailFor db d.id).map (hotelDetailSchemaOf db)⟩

/-- Conversion of a `Map` row with its single joined image. -/
def mapSchemaOf (db : Store) (m : MapRow) : MapSchema :=
  ⟨m.id, (mapImageFor db m.id).map imageSchemaOf⟩

/-- Conversion of a `Tag` row. -/
def tagSchemaOf (t : TagRow) : TagSchema := ⟨t.id, t.item⟩

/-- ItinerarySchema.model_validate over an ORM row: every declared field is
read from the instance; the required `price` attribute is missing on the model
(`itineraryPriceAttr`), so validation raises a `ValidationError` for every
row. -/
def itinerarySchemaValidate (db : Store) (row : ItineraryRow) : Except String ItinerarySchema :=
  match itineraryPriceAttr row with
  | none => .error "price: Field required"
  | some price =>
    .ok ⟨row.id, row.title, row.overview, row.slug, row.duration, row.arrival_city,
      row.departure_city, row.accommodation, row.location, row.discount, price,
      row.cost_inclusive, row.cost_exclusive,
      (imagesFor db "itinerary" row.id).map imageSchemaOf,
      (daysFor db row.id).map (daySchemaOf db),
      (mapFor db row.id).map (mapSchemaOf db),
      (tagsFor db row.id).map tagSchemaOf, row.created_at⟩

/-- Client-visible failures of the fetch path. -/
inductive HttpError where
  | validationFailure
  | unexpected (detail : String)
deriving DecidableEq, Repr

/-- GET /itineraries/slug (itinerary/itinerary.py, get_itinerary).  When no
row matches the slug, the handler raises HTTPException(404) inside its `try`;
having no dedicated `except HTTPException` clause, the catch-all
`except Exception` intercepts it and re-raises it as a 500.  When a row is
found, `model_validate` raises `ValidationError` (missing `price`), caught by
`except ValidationError` and surfaced as 422. -/
def get_itinerary (slug : String) (db : Store) : Except HttpError ItinerarySchema :=
  match db.itineraries.find? (fun r => r.slug = slug) with
  | none => .error (.unexpected "An unexpected error occurred: 404: Itinerary not found")
  | some row =>
    match itinerarySchemaValidate db row with
    | .error _ => .error .validationFailure
    | .ok schema => .ok schema

/-- C1 fails on the code: the create handler drops the payload `price` (the
`Itinerary` model has no such column) while the response model requires one,
so fetching any created itinerary by its slug fails response validation with
a 422 instead of returning the graph.  Concretely: creating `samplePayload`
succeeds, but the subsequent fetch by the derived slug
"golden-triangle-tour" yields the validation error. -/
theorem create_then_fetch_fails_validation :
    (∀ (db : Store) (row : ItineraryRow),
      itinerarySchemaValidate db row = .error "price: Field required") ∧
    (create_itinerary noFailOracle 0 samplePayload emptyStore).2 = .created 0 ∧
    slugify samplePayload.title = "golden-triangle-tour" ∧
    get_itinerary "golden-triangle-tour"
      (create_itinerary noFailOracle 0 samplePayload emptyStore).1 =
      .error .validationFailure := by
  refine ⟨fun db row => rfl, rfl, rfl, rfl⟩

/-! ## Deletion (itinerary/itinerary.py, delete_itinerary)

The Cloudinary cleanup block is one `try/except` wrapped around all the
destroy calls: a raising call is logged and swallowed, but it also aborts the
remaining destroy calls.  The database phase then runs unconditionally.  The
external service is modelled by an oracle telling whether the n-th destroy
call raises; the n-th call is still issued (the request reaches the media
host) before its failure is observed. -/

/-- Outcome of DELETE /itineraries/slug. -/
inductive DeleteResult where
  | ok (message : String)
  | badRequest (detail : String)
  | notFound (detail : String)
deriving DecidableEq, Repr

/-- Images visited by the Cloudinary cleanup block, in source order: root
itinerary images, then the map image, then for each day its images followed by
its hotel images. -/
def collectGraphImages (db : Store) (it : ItineraryRow) : List ImageRow :=
  imagesFor db "itinerary" it.id ++
  (match mapFor db it.id with
   | some m => (mapImageFor db m.id).toList
   | none => []) ++
  (daysFor db it.id).flatMap (fun d =>
    imagesFor db "itinerary_day" d.id ++
    (match hotelDetailFor db d.id with
     | some h => imagesFor db "hotel_detail" h.id
     | none => []))

/-- The cleanup loop: `cloudinary.uploader.destroy(img.public_id, ...)` for
each visited image whose `public_id` is truthy (nonempty); the single `except`
around the whole block stops at the first raising call.  Returns the
`public_id`s for which a destroy request was issued; `n` counts the calls
actually made. -/
def destroyImages (destroyRaises : Nat → Bool) : List ImageRow → Nat → List String
  | [], _ => []
  | img :: rest, n =>
    if img.public_id = "" then destroyImages destroyRaises rest n
    else if destroyRaises n then [img.public_id]
    else img.public_id :: destroyImages destroyRaises rest (n + 1)

/-- ORM cascade of `db.delete(itinerary)`: the itinerary row, its days
(`cascade="all, delete-orphan"`), each deleted day\x27s hotel detail, its map
and its tags are removed.  `Image` and `ImageLink` rows are untouched: the
image relations are `viewonly` and `ImageLink.entity_id` is a plain string
column with no foreign key, so no cascade reaches them. -/
def cascadeDelete (db : Store) (it : ItineraryRow) : Store :=
  let dayIds := (db.itinerary_days.filter (fun d => d.itinerary_id = it.id)).map (fun d => d.id)
  { db with
    itineraries := db.itineraries.filter (fun r => r.id ≠ it.id)
    itinerary_days := db.itinerary_days.filter (fun d => d.itinerary_id ≠ it.id)
    hotel_details := db.hotel_details.filter (fun h =>
      match h.day_id with
      | some d => !(dayIds.contains d)
      | none => true)
    maps := db.maps.filter (fun m => m.itinerary_id ≠ it.id)
    tags := db.tags.filter (fun t => t.itinerary_id ≠ it.id) }

/-- Result of one DELETE request: the store after the request, the destroy
requests issued to the media host, and the HTTP-level outcome. -/
structure DeleteOutcome where
  store : Store
  requests : List String
  result : DeleteResult
deriving DecidableEq, Repr

/-- DELETE /itineraries/slug (itinerary/itinerary.py, delete_itinerary):
reject an empty slug (400), look the itinerary up by slug (404 when absent,
re-raised intact by `except HTTPException: raise`), best-effort Cloudinary
cleanup, then delete the graph locally and commit, answering 200. -/
def delete_itinerary (destroyRaises : Nat → Bool) (slug : String) (db : Store) : DeleteOutcome :=
  if slug = "" then ⟨db, [], .badRequest "No slug was provided"⟩
  else
    match db.itineraries.find? (fun r => r.slug = slug) with
    | none => ⟨db, [], .notFound "Itinerary not found"⟩
    | some it =>
      ⟨cascadeDelete db it,
       destroyImages destroyRaises (collectGraphImages db it) 0,
       .ok ("Itinerary \x27" ++ it.title ++ "\x27 deleted successfully")⟩

theorem delete_found_eq {destroyRaises : Nat → Bool} {slug : String} {db : Store}
    {it : ItineraryRow} (hs : slug ≠ "")
    (hf : db.itineraries.find? (fun r => r.slug = slug) = some it) :
    delete_itinerary destroyRaises slug db =
      ⟨cascadeDelete db it, destroyImages destroyRaises (collectGraphImages db it) 0,
       .ok ("Itinerary \x27" ++ it.title ++ "\x27 deleted successfully")⟩ := by
  unfold delete_itinerary
  rw [if_neg hs, hf]

/-- C3: failures of the external media-host deletion calls never abort the
local deletion.  For every raise-oracle — including the one under which every
destroy call raises — the request still answers 200 with the success message,
the resulting store is identical to the one produced when no destroy call
fails, and the itinerary row together with its days, map and tags is gone. -/
theorem delete_swallows_media_failures (destroyRaises : Nat → Bool) (slug : String)
    (db : Store) (it : ItineraryRow) (hs : slug ≠ "")
    (hf : db.itineraries.find? (fun r => r.slug = slug) = some it) :
    (delete_itinerary destroyRaises slug db).result =
      .ok ("Itinerary \x27" ++ it.title ++ "\x27 deleted successfully") ∧
    (delete_itinerary destroyRaises slug db).store =
      (delete_itinerary noFailOracle slug db).store ∧
    ((delete_itinerary destroyRaises slug db).store.itineraries.any
      (fun r => r.id = it.id)) = false ∧
    ((delete_itinerary destroyRaises slug db).store.itinerary_days.any
      (fun d => d.itinerary_id = it.id)) = false ∧
    ((delete_itinerary destroyRaises slug db).store.maps.any
      (fun m => m.itinerary_id = it.id)) = false ∧
    ((delete_itinerary destroyRaises slug db).store.tags.any
      (fun t => t.itinerary_id = it.id)) = false := by
  rw [delete_found_eq hs hf, @delete_found_eq noFailOracle slug db it hs hf]
  refine ⟨rfl, rfl, ?_, ?_, ?_, ?_⟩ <;>
    simp [cascadeDelete, List.any_eq_true, List.mem_filter]

/-- The store produced by creating `samplePayload` over the empty store. -/
def sampleStore : Store := (create_itinerary noFailOracle 0 samplePayload emptyStore).1

/-- The root row stored for `samplePayload`. -/
def sampleItinerary : ItineraryRow := rootRowOf samplePayload 0 0 "golden-triangle-tour"

/-- C4 counterexample: with a raise-oracle failing the first destroy call,
deleting the sample itinerary issues a request only for the first collected
image "p1"; the other collected images with remote identifiers ("mp1", "dp1",
"hp1") receive none, because the single `except` wrapped around the whole
cleanup loop stops at the first raising call. -/
theorem delete_requests_dropped_after_failure :
    (delete_itinerary (fun n => n == 0) "golden-triangle-tour" sampleStore).requests = ["p1"] ∧
    (collectGraphImages sampleStore sampleItinerary).map (fun i => i.public_id) =
      ["p1", "mp1", "dp1", "hp1"] ∧
    ¬ "mp1" ∈ (delete_itinerary (fun n => n == 0) "golden-triangle-tour" sampleStore).requests := by
  refine ⟨rfl, rfl, by decide⟩

theorem destroyImages_noRaise {o : Nat → Bool} (h : ∀ k, o k = false) :
    ∀ (imgs : List ImageRow) (n : Nat),
      destroyImages o imgs n =
        (imgs.filter (fun i => i.public_id ≠ "")).map (fun i => i.public_id) := by
  intro imgs
  induction imgs with
  | nil => intro n; rfl
  | cons img rest ih =>
    intro n
    by_cases hp : img.public_id = ""
    · simp [destroyImages, hp, ih]
    · simp [destroyImages, hp, h n, ih]

theorem destroyImages_initial {o : Nat → Bool} :
    ∀ (imgs : List ImageRow) (n : Nat), ∃ tail,
      (imgs.filter (fun i => i.public_id ≠ "")).map (fun i => i.public_id) =
        destroyImages o imgs n ++ tail := by
  intro imgs
  induction imgs with
  | nil => intro n; exact ⟨[], rfl⟩
  | cons img rest ih =>
    intro n
    by_cases hp : img.public_id = ""
    · simpa [destroyImages, hp] using ih n
    · by_cases ho : o n = true
      · refine ⟨(rest.filter (fun i => i.public_id ≠ "")).map (fun i => i.public_id), ?_⟩
        simp [destroyImages, hp, ho]
      · obtain ⟨tail, htail⟩ := ih (n + 1)
        refine ⟨tail, ?_⟩
        simp [destroyImages, hp, ho]
        simpa using htail

/-- C4 amended: during deleteItinerary one destroy request per collected image
with a remote identifier is issued only in runs where no destroy call raises;
in general the issued requests form an initial segment of the collected
identifiers — the first raising call is still issued, but every image after it
receives no request (the single `except` around the cleanup loop aborts the
rest), while the database deletion proceeds regardless. -/
theorem delete_requests_spec (destroyRaises : Nat → Bool) (slug : String) (db : Store)
    (it : ItineraryRow) (hs : slug ≠ "")
    (hf : db.itineraries.find? (fun r => r.slug = slug) = some it) :
    ((∀ k, destroyRaises k = false) →
      (delete_itinerary destroyRaises slug db).requests =
        ((collectGraphImages db it).filter (fun i => i.public_id ≠ "")).map
          (fun i => i.public_id)) ∧
    (∃ tail, ((collectGraphImages db it).filter (fun i => i.public_id ≠ "")).map
        (fun i => i.public_id) =
      (delete_itinerary destroyRaises slug db).requests ++ tail) := by
  rw [delete_found_eq hs hf]
  exact ⟨fun h => destroyImages_noRaise h _ 0, destroyImages_initial _ 0⟩

/-- C4 witness: with no raising call, deleting the sample itinerary issues one
request per collected image, in collection order. -/
theorem delete_requests_spec_witness :
    (delete_itinerary noFailOracle "golden-triangle-tour" sampleStore).requests =
      ((collectGraphImages sampleStore sampleItinerary).filter
        (fun i => i.public_id ≠ "")).map (fun i => i.public_id) :=
  (delete_requests_spec noFailOracle "golden-triangle-tour" sampleStore sampleItinerary
    (by decide) (by decide)).1 (fun k => rfl)

/-- C8: cascade completeness.  After a successful delete, none of the deleted
itinerary\x27s days, hotel details, maps or tags can be found by their prior
identifiers (assuming, per the identifier invariant, that row identifiers are
unique within each table). -/
theorem delete_cascade_complete (destroyRaises : Nat → Bool) (slug : String) (db : Store)
    (it : ItineraryRow) (hs : slug ≠ "")
    (hf : db.itineraries.find? (fun r => r.slug = slug) = some it)
    (hnd : (db.itinerary_days.map (fun d => d.id)).Nodup)
    (hnh : (db.hotel_details.map (fun h => h.id)).Nodup)
    (hnm : (db.maps.map (fun m => m.id)).Nodup)
    (hnt : (db.tags.map (fun t => t.id)).Nodup) :
    (∀ d ∈ db.itinerary_days, d.itinerary_id = it.id →
      (delete_itinerary destroyRaises slug db).store.itinerary_days.find?
        (fun x => x.id = d.id) = none) ∧
    (∀ d ∈ db.itinerary_days, ∀ h ∈ db.hotel_details,
      d.itinerary_id = it.id → h.day_id = some d.id →
      (delete_itinerary destroyRaises slug db).store.hotel_details.find?
        (fun x => x.id = h.id) = none) ∧
    (∀ m ∈ db.maps, m.itinerary_id = it.id →
      (delete_itinerary destroyRaises slug db).store.maps.find?
        (fun x => x.id = m.id) = none) ∧
    (∀ t ∈ db.tags, t.itinerary_id = it.id →
      (delete_itinerary destroyRaises slug db).store.tags.find?
        (fun x => x.id = t.id) = none) := by
  rw [delete_found_eq hs hf]
  refine ⟨?_, ?_, ?_, ?_⟩
  · intro d hd hdit
    apply List.find?_eq_none.mpr
    intro x hx hxb
    simp only [cascadeDelete, List.mem_filter] at hx
    obtain ⟨hx1, hx2⟩ := hx
    have hxd : x.id = d.id := by simpa using hxb
    have hxe : x = d := List.inj_on_of_nodup_map hnd hx1 hd hxd
    subst hxe
    simp at hx2
    exact hx2 hdit
  · intro d hd h hh hdit hhd
    apply List.find?_eq_none.mpr
    intro x hx hxb
    simp only [cascadeDelete, List.mem_filter] at hx
    obtain ⟨hx1, hx2⟩ := hx
    have hxh : x.id = h.id := by simpa using hxb
    have hxe : x = h := List.inj_on_of_nodup_map hnh hx1 hh hxh
    subst hxe
    rw [hhd] at hx2
    simp at hx2
    exact hx2 d hd hdit rfl
  · intro m hm hmit
    apply List.find?_eq_none.mpr
    intro x hx hxb
    simp only [cascadeDelete, List.mem_filter] at hx
    obtain ⟨hx1, hx2⟩ := hx
    have hxm : x.id = m.id := by simpa using hxb
    have hxe : x = m := List.inj_on_of_nodup_map hnm hx1 hm hxm
    subst hxe
    simp at hx2
    exact hx2 hmit
  · intro t ht htit
    apply List.find?_eq_none.mpr
    intro x hx hxb
    simp only [cascadeDelete, List.mem_filter] at hx
    obtain ⟨hx1, hx2⟩ := hx
    have hxt : x.id = t.id := by simpa using hxb
    have hxe : x = t := List.inj_on_of_nodup_map hnt hx1 ht hxt
    subst hxe
    simp at hx2
    exact hx2 htit

/-- C8 witness: the cascade-completeness lookups evaluated on the sample
store: day 3, hotel 6, map 9 and tag 12 are all gone after the delete. -/
theorem delete_cascade_complete_witness :
    (delete_itinerary noFailOracle "golden-triangle-tour" sampleStore).store.itinerary_days.find?
      (fun x => x.id = 3) = none ∧
    (delete_itinerary noFailOracle "golden-triangle-tour" sampleStore).store.hotel_details.find?
      (fun x => x.id = 6) = none ∧
    (delete_itinerary noFailOracle "golden-triangle-tour" sampleStore).store.maps.find?
      (fun x => x.id = 9) = none ∧
    (delete_itinerary noFailOracle "golden-triangle-tour" sampleStore).store.tags.find?
      (fun x => x.id = 12) = none := by
  obtain ⟨c1, c2, c3, c4⟩ := delete_cascade_complete noFailOracle "golden-triangle-tour"
    sampleStore sampleItinerary (by decide) (by decide) (by decide) (by decide)
    (by decide) (by decide)
  refine ⟨c1 ⟨3, 1, "Arrival", "Arrive and rest", 0⟩ (by decide) (by decide), ?_, ?_, ?_⟩
  · exact c2 ⟨3, 1, "Arrival", "Arrive and rest", 0⟩ (by decide)
      ⟨6, "Taj Hotel", some "https://taj.example", some 3⟩ (by decide) (by decide) (by decide)
  · exact c3 ⟨9, 0⟩ (by decide) (by decide)
  · exact c4 ⟨12, "golden", 0⟩ (by decide) (by decide)

/-- C10: frame effect of deletion on image data.  A successful delete answers
200, yet leaves the `images` and `image_links` tables exactly as they were:
no Image or ImageLink row attached to the deleted graph is removed (the image
relations are `viewonly` and `ImageLink.entity_id` has no foreign key, so no
cascade reaches them); the surviving links dangle. -/
theorem delete_preserves_image_tables (destroyRaises : Nat → Bool) (slug : String)
    (db : Store) (it : ItineraryRow) (hs : slug ≠ "")
    (hf : db.itineraries.find? (fun r => r.slug = slug) = some it) :
    (delete_itinerary destroyRaises slug db).result =
      .ok ("Itinerary \x27" ++ it.title ++ "\x27 deleted successfully") ∧
    (delete_itinerary destroyRaises slug db).store.images = db.images ∧
    (delete_itinerary destroyRaises slug db).store.image_links = db.image_links := by
  rw [delete_found_eq hs hf]
  exact ⟨rfl, rfl, rfl⟩

/-- C10 witness: deleting the sample itinerary keeps all four Image rows and
all four ImageLink rows. -/
theorem delete_preserves_image_tables_witness :
    (delete_itinerary noFailOracle "golden-triangle-tour" sampleStore).store.images =
      sampleStore.images ∧
    (delete_itinerary noFailOracle "golden-triangle-tour" sampleStore).store.image_links =
      sampleStore.image_links :=
  (delete_preserves_image_tables noFailOracle "golden-triangle-tour" sampleStore
    sampleItinerary (by decide) (by decide)).2

/-! ## Upload signature endpoint (uploads/uploads.py, uploads/schema.py) -/

/-- Parameters signed by the endpoint: the request timestamp and the fixed
folder "itineraries" (the `params_to_sign` dictionary). -/
structure SignedParams where
  timestamp : Nat
  folder : String
deriving DecidableEq, Repr

/-- SignatureResponseSchema (uploads/schema.py): the exact field set of the
response of GET /uploads/signature. -/
structure SignatureResponseSchema where
  cloud_name : String
  api_key : String
  timestamp : Nat
  signature : String
  folder : String
  resource_type : String
deriving DecidableEq, Repr

/-- Cloudinary configuration read from the process environment. -/
structure CloudinaryEnv where
  cloud_name : String
  api_key : String
  api_secret : String
deriving DecidableEq, Repr

/-- get_upload_signature (uploads/uploads.py).  `api_sign_request` is the
external Cloudinary signing primitive (outside this repository), passed here
as an explicit function; the handler passes the secret to it and uses the
secret nowhere else. -/
def get_upload_signature (api_sign_request : SignedParams → String → String)
    (env : CloudinaryEnv) (timestamp : Nat) : SignatureResponseSchema :=
  { cloud_name := env.cloud_name
    api_key := env.api_key
    timestamp := timestamp
    signature := api_sign_request ⟨timestamp, "itineraries"⟩ env.api_secret
    folder := "itineraries"
    resource_type := "image" }

/-- C9: the response of GET /uploads/signature is exactly the record of cloud
name, API key, timestamp, signature, folder and resource type, and the secret
feeds only the signature: every other field of the response is unchanged when
the secret changes, for any signing function and any two secrets. -/
theorem upload_signature_secret_confined (api_sign_request : SignedParams → String → String)
    (cn ak s1 s2 : String) (ts : Nat) :
    get_upload_signature api_sign_request ⟨cn, ak, s1⟩ ts =
      ⟨cn, ak, ts, api_sign_request ⟨ts, "itineraries"⟩ s1, "itineraries", "image"⟩ ∧
    (get_upload_signature api_sign_request ⟨cn, ak, s1⟩ ts).cloud_name =
      (get_upload_signature api_sign_request ⟨cn, ak, s2⟩ ts).cloud_name ∧
    (get_upload_signature api_sign_request ⟨cn, ak, s1⟩ ts).api_key =
      (get_upload_signature api_sign_request ⟨cn, ak, s2⟩ ts).api_key ∧
    (get_upload_signature api_sign_request ⟨cn, ak, s1⟩ ts).timestamp =
      (get_upload_signature api_sign_request ⟨cn, ak, s2⟩ ts).timestamp ∧
    (get_upload_signature api_sign_request ⟨cn, ak, s1⟩ ts).folder =
      (get_upload_signature api_sign_request ⟨cn, ak, s2⟩ ts).folder ∧
    (get_upload_signature api_sign_request ⟨cn, ak, s1⟩ ts).resource_type =
      (get_upload_signature api_sign_request ⟨cn, ak, s2⟩ ts).resource_type :=
  ⟨rfl, rfl, rfl, rfl, rfl, rfl⟩

/-- C3 witness: with every destroy call raising, deleting the sample
itinerary still answers the success message and removes the itinerary row. -/
theorem delete_swallows_media_failures_witness :
    (delete_itinerary (fun _ => true) "golden-triangle-tour" sampleStore).result =
      .ok ("Itinerary \x27" ++ sampleItinerary.title ++ "\x27 deleted successfully") ∧
    ((delete_itinerary (fun _ => true) "golden-triangle-tour" sampleStore).store.itineraries.any
      (fun r => r.id = sampleItinerary.id)) = false :=
  ⟨(delete_swallows_media_failures (fun _ => true) "golden-triangle-tour" sampleStore
      sampleItinerary (by decide) (by decide)).1,
   (delete_swallows_media_failures (fun _ => true) "golden-triangle-tour" sampleStore
      sampleItinerary (by decide) (by decide)).2.2.1⟩

end ToursBackend
